import Mathlib

/-!
# Verification of the faculty experiment client's filter/sort model

A shallow embedding of `faculty/clients/experiment.py` (and, where that
module leans on `faculty/clients/base.py`, a model of the base layer built
from its documented contract): the run-query filter/sort expression
language, its construction-time validation, its wire encoding and
decoding, and the bulk delete/restore and query-run request builders.
Theorems below settle the spec's claims about this code.
-/

namespace Faculty

/-! ## Enumerations (experiment.py `Enum` classes)

Each Python `Enum` becomes a Lean inductive together with a `value`
function giving the wire string literal of each member, mirroring the
`Enum` member values in the source. -/

/-- Embeds `SingleFilterOperator` (experiment.py lines 126-133). -/
inductive SingleFilterOperator
  | DEFINED
  | EQUAL_TO
  | NOT_EQUAL_TO
  | LESS_THAN
  | LESS_THAN_OR_EQUAL_TO
  | GREATER_THAN
  | GREATER_THAN_OR_EQUAL_TO
deriving DecidableEq, Repr

/-- The wire value of each `SingleFilterOperator` member. -/
def SingleFilterOperator.value : SingleFilterOperator → String
  | .DEFINED => "defined"
  | .EQUAL_TO => "eq"
  | .NOT_EQUAL_TO => "ne"
  | .LESS_THAN => "lt"
  | .LESS_THAN_OR_EQUAL_TO => "le"
  | .GREATER_THAN => "gt"
  | .GREATER_THAN_OR_EQUAL_TO => "ge"

/-- Embeds `SingleFilterBy` (experiment.py lines 136-150). -/
inductive SingleFilterBy
  | PROJECT_ID
  | EXPERIMENT_ID
  | RUN_ID
  | DELETED_AT
  | TAG
  | PARAM
  | METRIC
deriving DecidableEq, Repr

/-- The wire value of each `SingleFilterBy` member. -/
def SingleFilterBy.value : SingleFilterBy → String
  | .PROJECT_ID => "projectId"
  | .EXPERIMENT_ID => "experimentId"
  | .RUN_ID => "runId"
  | .DELETED_AT => "deletedAt"
  | .TAG => "tag"
  | .PARAM => "param"
  | .METRIC => "metric"

/-- Embeds `SingleFilterBy.needs_key` (experiment.py lines 145-150):
membership in `{TAG, PARAM, METRIC}`. -/
def SingleFilterBy.needs_key (b : SingleFilterBy) : Bool :=
  b = SingleFilterBy.TAG ∨ b = SingleFilterBy.PARAM ∨ b = SingleFilterBy.METRIC

/-- Embeds `CompoundFilterOperator` (experiment.py lines 153-155). -/
inductive CompoundFilterOperator
  | AND
  | OR
deriving DecidableEq, Repr

/-- The wire value of each `CompoundFilterOperator` member. -/
def CompoundFilterOperator.value : CompoundFilterOperator → String
  | .AND => "and"
  | .OR => "or"

/-- Embeds `SortBy` (experiment.py lines 172-181). -/
inductive SortBy
  | STARTED_AT
  | RUN_NUMBER
  | DURATION
  | TAG
  | PARAM
  | METRIC
deriving DecidableEq, Repr

/-- The wire value of each `SortBy` member. -/
def SortBy.value : SortBy → String
  | .STARTED_AT => "startedAt"
  | .RUN_NUMBER => "runNumber"
  | .DURATION => "duration"
  | .TAG => "tag"
  | .PARAM => "param"
  | .METRIC => "metric"

/-- Embeds `SortBy.needs_key` (experiment.py lines 180-181):
membership in `{TAG, PARAM, METRIC}`. -/
def SortBy.needs_key (b : SortBy) : Bool :=
  b = SortBy.TAG ∨ b = SortBy.PARAM ∨ b = SortBy.METRIC

/-- Embeds `SortOrder` (experiment.py lines 184-186). -/
inductive SortOrder
  | ASC
  | DESC
deriving DecidableEq, Repr

/-- The wire value of each `SortOrder` member. -/
def SortOrder.value : SortOrder → String
  | .ASC => "asc"
  | .DESC => "desc"

/-! ## Filter values

`SingleFilter.value` is polymorphic in Python.  The types the code
distinguishes (via `isinstance` checks and `str(...)` calls) are `int`,
`uuid.UUID`, `str` and `datetime.datetime`; `FilterValue` covers them.

`uuid.UUID` is a third-party leaf: we model it by its canonical
dash-separated string form, which is exactly what Python's
`str(uuid.UUID(...))` produces.  `datetime.datetime` is modelled by its
six calendar/clock fields; `str(datetime)` is the zero-padded
space-separated form and `.isoformat()` the `T`-separated form. -/

/-- Models `uuid.UUID`: identified with its canonical string form, which
is what `str` returns on it. -/
structure UUID where
  canonical : String
deriving DecidableEq, Repr

/-- Models `datetime.datetime` (naive, to the second — fractional seconds
and timezone offsets do not arise in this development). -/
structure PyDateTime where
  year : Nat
  month : Nat
  day : Nat
  hour : Nat
  minute : Nat
  second : Nat
deriving DecidableEq, Repr

/-- Field bounds under which the textual renderings below are the usual
fixed-width ones (4-digit year, 2-digit other fields). -/
def PyDateTime.valid (d : PyDateTime) : Prop :=
  d.year < 10000 ∧ d.month < 100 ∧ d.day < 100 ∧
    d.hour < 100 ∧ d.minute < 100 ∧ d.second < 100

instance (d : PyDateTime) : Decidable d.valid := by
  unfold PyDateTime.valid; infer_instance

/-- The decimal digit character for `n < 10`. -/
def digitChar (n : Nat) : Char := Char.ofNat (48 + n)

/-- The numeric value of a decimal digit character. -/
def digitVal (c : Char) : Nat := c.toNat - 48

/-- Two-digit zero-padded rendering of `n` (as characters). -/
def pad2 (n : Nat) : List Char := [digitChar (n / 10), digitChar (n % 10)]

/-- Four-digit zero-padded rendering of `n` (as characters). -/
def pad4 (n : Nat) : List Char :=
  [digitChar (n / 1000), digitChar (n / 100 % 10),
   digitChar (n / 10 % 10), digitChar (n % 10)]

/-- The characters of a datetime rendered with the given separator between
the date and time parts: `YYYY-MM-DD<sep>HH:MM:SS`. -/
def PyDateTime.chars (sep : Char) (d : PyDateTime) : List Char :=
  pad4 d.year ++ '-' :: pad2 d.month ++ '-' :: pad2 d.day ++
    sep :: pad2 d.hour ++ ':' :: pad2 d.minute ++ ':' :: pad2 d.second

/-- Models `datetime.isoformat()`: the `T`-separated ISO-8601 rendering. -/
def PyDateTime.isoformat (d : PyDateTime) : String := String.mk (d.chars 'T')

/-- Models Python `str(datetime)`: the space-separated rendering. -/
def PyDateTime.pyStr (d : PyDateTime) : String := String.mk (d.chars ' ')

/-- The value carried by a `SingleFilter`: the Python types the code's
`isinstance` checks and `str` conversions distinguish. -/
inductive FilterValue
  | intV (n : Int)
  | uuidV (u : UUID)
  | strV (s : String)
  | dtV (d : PyDateTime)
deriving DecidableEq, Repr

/-- Models Python `str(...)` on a filter value: decimal form of an `int`,
canonical form of a `uuid.UUID`, identity on `str`, space-separated
rendering of a `datetime`. -/
def FilterValue.pyStr : FilterValue → String
  | .intV n => toString n
  | .uuidV u => u.canonical
  | .strV s => s
  | .dtV d => d.pyStr

/-! ## Filters, sorts and queries (the namedtuples and their `__new__`) -/

/-- Embeds the `SingleFilter` namedtuple fields (experiment.py line 109).
The Python field `by` is a Lean keyword, hence `by_`. -/
structure SingleFilter where
  by_ : SingleFilterBy
  key : Option String
  operator : SingleFilterOperator
  value : FilterValue
deriving DecidableEq, Repr

/-- Embeds `SingleFilter.__new__` (experiment.py lines 112-120): the
construction-time needs-key check; `ValueError` becomes `Except.error`. -/
def SingleFilter.new (by_ : SingleFilterBy) (key : Option String)
    (operator : SingleFilterOperator) (value : FilterValue) :
    Except String SingleFilter :=
  if by_.needs_key ∧ key = none then
    .error ("key must not be none for filter type " ++ by_.value)
  else if ¬ by_.needs_key ∧ key ≠ none then
    .error ("key must be none for filter type " ++ by_.value)
  else
    .ok ⟨by_, key, operator, value⟩

/-- Embeds the recursive filter shape: a `SingleFilter` or a
`CompoundFilter` namedtuple (experiment.py line 123).  A condition slot of
a compound holds a Python object that may also be `None`, hence
`Option Filter` in the conditions list. -/
inductive Filter
  | single (f : SingleFilter)
  | compound (operator : CompoundFilterOperator)
      (conditions : List (Option Filter))

/-- Embeds the `Sort` namedtuple fields (experiment.py line 158).  `Sort`
is a Lean keyword, hence the name `SortSpec`. -/
structure SortSpec where
  by_ : SortBy
  key : Option String
  order : SortOrder
deriving DecidableEq, Repr

/-- Embeds `Sort.__new__` (experiment.py lines 161-169): the
construction-time needs-key check; `ValueError` becomes `Except.error`. -/
def SortSpec.new (by_ : SortBy) (key : Option String) (order : SortOrder) :
    Except String SortSpec :=
  if by_.needs_key ∧ key = none then
    .error ("key must not be none for sort type " ++ by_.value)
  else if ¬ by_.needs_key ∧ key ≠ none then
    .error ("key must be none for sort type " ++ by_.value)
  else
    .ok ⟨by_, key, order⟩

/-- Embeds the `Page` namedtuple (experiment.py line 97). -/
structure Page where
  start : Int
  limit : Int
deriving DecidableEq, Repr

/-- Embeds the `QueryRuns` namedtuple (experiment.py line 189). -/
structure QueryRuns where
  filter : Option Filter
  sort : Option (List SortSpec)
  page : Option Page

/-! ## JSON values

The wire format produced by `Schema.dump` and consumed by `Schema.load`. -/

/-- A JSON value; objects are ordered key/value lists (Python dicts
preserve insertion order, and schema output follows field declaration
order). -/
inductive Json
  | null
  | str (s : String)
  | num (n : Int)
  | obj (fields : List (String × Json))
  | arr (elems : List Json)

/-- Errors raised while serialising (dumping) a query: the module's own
`RunQueryFilterValidation` exception, and `ValueError` as raised by the
datetime parsing helper. -/
inductive SerError
  | runQueryFilterValidation (message : String)
  | valueError (message : String)
deriving DecidableEq, Repr

/-- Errors raised while deserialising (loading): marshmallow's
`ValidationError` (error-message aggregation across fields is abstracted
to the first failing field's message). -/
inductive LoadError
  | validationError (message : String)
deriving DecidableEq, Repr

/-- Models `marshmallow.utils.from_iso_datetime` restricted to the core
`YYYY-MM-DD[T ]HH:MM:SS` form (fractional seconds and offsets omitted):
parse failure is the `ValueError` the library raises. -/
def from_iso_datetime (s : String) : Except SerError PyDateTime :=
  match s.data with
  | [y1, y2, y3, y4, sep1, m1, m2, sep2, d1, d2, sepT,
     h1, h2, sep3, n1, n2, sep4, s1, s2] =>
    if sep1 = '-' ∧ sep2 = '-' ∧ (sepT = 'T' ∨ sepT = ' ') ∧
        sep3 = ':' ∧ sep4 = ':' ∧
        y1.isDigit ∧ y2.isDigit ∧ y3.isDigit ∧ y4.isDigit ∧
        m1.isDigit ∧ m2.isDigit ∧ d1.isDigit ∧ d2.isDigit ∧
        h1.isDigit ∧ h2.isDigit ∧ n1.isDigit ∧ n2.isDigit ∧
        s1.isDigit ∧ s2.isDigit then
      .ok ⟨1000 * digitVal y1 + 100 * digitVal y2 + 10 * digitVal y3 +
            digitVal y4,
          10 * digitVal m1 + digitVal m2,
          10 * digitVal d1 + digitVal d2,
          10 * digitVal h1 + digitVal h2,
          10 * digitVal n1 + digitVal n2,
          10 * digitVal s1 + digitVal s2⟩
    else
      .error (.valueError "Not a valid ISO8601-formatted datetime string")
  | _ => .error (.valueError "Not a valid ISO8601-formatted datetime string")

/-! ## Serialisation of single-filter values

Embeds `SingleFilterValueField` (experiment.py lines 337-375).  The
methods take the value together with the enclosing `SingleFilter`'s `by`
field (the only part of `obj` the methods consult). -/

/-- Embeds `SingleFilterValueField._is_valid_uuid` (lines 342-345). -/
def SingleFilterValueField.is_valid_uuid (value : FilterValue)
    (by_ : SingleFilterBy) : Bool :=
  (match value with | .uuidV _ => true | _ => false) &&
    (by_ = SingleFilterBy.PROJECT_ID ∨ by_ = SingleFilterBy.RUN_ID)

/-- Embeds `SingleFilterValueField._is_valid_experiment_id`
(lines 347-350). -/
def SingleFilterValueField.is_valid_experiment_id (value : FilterValue)
    (by_ : SingleFilterBy) : Bool :=
  (match value with | .intV _ => true | _ => false) &&
    by_ = SingleFilterBy.EXPERIMENT_ID

/-- Embeds `SingleFilterValueField._is_directly_stringifiable`
(lines 352-362). -/
def SingleFilterValueField.is_directly_stringifiable (value : FilterValue)
    (by_ : SingleFilterBy) : Bool :=
  SingleFilterValueField.is_valid_uuid value by_ ||
    SingleFilterValueField.is_valid_experiment_id value by_ ||
    (by_ = SingleFilterBy.TAG ∨ by_ = SingleFilterBy.PARAM ∨
      by_ = SingleFilterBy.METRIC)

/-- Embeds `SingleFilterValueField._serialize` (lines 367-375): `str` the
directly-stringifiable values, re-parse-and-format datetimes for
`DELETED_AT`, raise `RunQueryFilterValidation` otherwise. -/
def SingleFilterValueField.serialize (value : FilterValue)
    (by_ : SingleFilterBy) : Except SerError String :=
  if SingleFilterValueField.is_directly_stringifiable value by_ then
    .ok value.pyStr
  else if by_ = SingleFilterBy.DELETED_AT then
    (from_iso_datetime value.pyStr).map PyDateTime.isoformat
  else
    .error
      (.runQueryFilterValidation
        "Validation error serialising run query filter")

/-! ## Serialisation of filters, sorts and queries -/

/-- Embeds `SingleFilterSchema` on the dump side (lines 405-409): fields
`by`, `key`, `operator` (enums by value) and `value`
(`SingleFilterValueField`), in declaration order; a `None` key dumps as
JSON null. -/
def SingleFilterSchema.dump (f : SingleFilter) : Except SerError Json := do
  let v ← SingleFilterValueField.serialize f.value f.by_
  .ok (.obj [("by", .str f.by_.value),
             ("key", match f.key with | none => .null | some k => .str k),
             ("operator", .str f.operator.value),
             ("value", .str v)])

/-- The enclosing object of a `FilterField` serialisation, of which the
code tests only `isinstance(obj, QueryRuns)`: the field appears on
`QueryRunsSchema.filter` (enclosing object a `QueryRuns`) and inside
`CompoundFilterSchema.conditions` (enclosing object the
`CompoundFilter`). -/
inductive Enclosing
  | queryRuns
  | compoundFilter
deriving DecidableEq, Repr

mutual

/-- Embeds `FilterField._serialize` (lines 391-402): a `None` filter dumps
to null only under a `QueryRuns`, otherwise raises
`RunQueryFilterValidation`; otherwise dispatch on the runtime variant to
`SingleFilterSchema.dump` or `CompoundFilterSchema`'s dump. -/
def FilterField.serialize (value : Option Filter) (encl : Enclosing) :
    Except SerError Json :=
  match value with
  | none =>
    match encl with
    | .queryRuns => .ok .null
    | .compoundFilter =>
      .error
        (.runQueryFilterValidation
          "Validation error serialising a None filter")
  | some (.single f) => SingleFilterSchema.dump f
  | some (.compound op conds) => do
    let cs ← FilterField.serializeConditions conds
    .ok (.obj [("operator", .str op.value), ("conditions", .arr cs)])

/-- The dump of `CompoundFilterSchema.conditions` (line 414):
`fields.List` serialises each element with the inner `FilterField`,
passing the compound as the enclosing object. -/
def FilterField.serializeConditions (conds : List (Option Filter)) :
    Except SerError (List Json) :=
  match conds with
  | [] => .ok []
  | c :: rest => do
    let j ← FilterField.serialize c .compoundFilter
    let js ← FilterField.serializeConditions rest
    .ok (j :: js)

end

/-- Embeds `SortSchema` on the dump side (lines 417-420): fields `by`,
`key`, `order` in declaration order; a `None` key dumps as JSON null. -/
def SortSchema.dump (s : SortSpec) : Json :=
  .obj [("by", .str s.by_.value),
        ("key", match s.key with | none => .null | some k => .str k),
        ("order", .str s.order.value)]

/-- The dump of `QueryRunsSchema.sort` (line 425): `fields.List` of nested
`SortSchema`; a `None` list dumps as JSON null. -/
def QueryRunsSchema.dumpSortField : Option (List SortSpec) → Json
  | none => .null
  | some l => .arr (l.map SortSchema.dump)

/-- The dump of `QueryRunsSchema.page` (line 426): nested `PageSchema`;
a `None` page dumps as JSON null. -/
def QueryRunsSchema.dumpPageField : Option Page → Json
  | none => .null
  | some p => .obj [("start", .num p.start), ("limit", .num p.limit)]

/-- Embeds `QueryRunsSchema` on the dump side (lines 423-426): fields
`filter` (a `FilterField` with the query as enclosing object), `sort` and
`page`, in declaration order. -/
def QueryRunsSchema.dump (q : QueryRuns) : Except SerError Json := do
  let f ← FilterField.serialize q.filter .queryRuns
  .ok (.obj [("filter", f),
             ("sort", QueryRunsSchema.dumpSortField q.sort),
             ("page", QueryRunsSchema.dumpPageField q.page)])

/-! ## Deserialisation of filters

`FilterField._deserialize` (lines 383-389) receives raw JSON values.  Its
`isinstance(value, SingleFilter)` test is never true of a raw JSON value
(a parsed JSON object is a `dict`, not a `SingleFilter` namedtuple), so on
raw input the function returns `None` for null and otherwise always calls
`CompoundFilterSchema().load`.  `SingleFilterSchema` and
`CompoundFilterSchema` have no `post_load` hook, so `load` returns a plain
dict of loaded fields; `PyValue` models those Python results. -/

/-- A Python value produced by loading a filter: `None`, a loaded enum
member, a dict of loaded fields, or a list. -/
inductive PyValue
  | none
  | compoundOp (o : CompoundFilterOperator)
  | dict (fields : List (String × PyValue))
  | list (elems : List PyValue)

/-- The load side of `EnumField(CompoundFilterOperator, by_value=True)`:
match a wire string against the members' values; anything else is a
`ValidationError`. -/
def CompoundFilterOperator.load : Json → Except LoadError CompoundFilterOperator
  | .str "and" => .ok .AND
  | .str "or" => .ok .OR
  | _ => .error (.validationError "Invalid enum value")

mutual

/-- Embeds `FilterField._deserialize` (lines 383-389) on raw JSON input:
null loads as `None`; any other raw value fails the (always-false on raw
JSON) `SingleFilter` instance test and is loaded by
`CompoundFilterSchema`. -/
def FilterField.deserialize (j : Json) : Except LoadError PyValue :=
  match j with
  | .null => .ok .none
  | j => CompoundFilterSchema.load j
termination_by (sizeOf j, 2)
decreasing_by
  exact Prod.Lex.right _ (by omega)

/-- Embeds `CompoundFilterSchema().load` (lines 412-414) under
`BaseSchema`'s ignore-unknown-keys policy: the input must be an object;
`operator` is required and loaded by value into `CompoundFilterOperator`;
`conditions`, when present, must be a list and is loaded elementwise by
the inner `FilterField`; keys outside the schema are ignored; the result
is the dict of loaded fields in declaration order. -/
def CompoundFilterSchema.load (j : Json) : Except LoadError PyValue :=
  match j with
  | .obj fields =>
    match fields.lookup "operator" with
    | Option.none => .error (.validationError "Missing data for required field")
    | some opJson =>
      match CompoundFilterOperator.load opJson with
      | .error e => .error e
      | .ok op =>
        match CompoundFilterSchema.loadConditionsField fields with
        | .error e => .error e
        | .ok Option.none => .ok (.dict [("operator", .compoundOp op)])
        | .ok (some cs) =>
          .ok (.dict [("operator", .compoundOp op),
                      ("conditions", .list cs)])
  | _ => .error (.validationError "Invalid input type")
termination_by (sizeOf j, 1)
decreasing_by
  apply Prod.Lex.left
  simp
  try omega

/-- The extraction of the `conditions` field from the raw object: the
first binding of the `"conditions"` key is taken (JSON objects bind each
key once), its value must be a list and is loaded elementwise; an absent
key loads as an absent optional field. -/
def CompoundFilterSchema.loadConditionsField
    (fields : List (String × Json)) :
    Except LoadError (Option (List PyValue)) :=
  match fields with
  | [] => .ok Option.none
  | (k, .arr elems) :: rest =>
    if k = "conditions" then
      (FilterField.loadConditions elems).map some
    else
      CompoundFilterSchema.loadConditionsField rest
  | (k, _) :: rest =>
    if k = "conditions" then
      .error (.validationError "Not a valid list")
    else
      CompoundFilterSchema.loadConditionsField rest
termination_by (sizeOf fields, 0)
decreasing_by
  all_goals apply Prod.Lex.left
  all_goals simp
  all_goals omega

/-- The load of the `conditions` list: each element through
`FilterField._deserialize`, failing on the first invalid element. -/
def FilterField.loadConditions (l : List Json) :
    Except LoadError (List PyValue) :=
  match l with
  | [] => .ok []
  | c :: rest =>
    match FilterField.deserialize c with
    | .error e => .error e
    | .ok v =>
      match FilterField.loadConditions rest with
      | .error e => .error e
      | .ok vs => .ok (v :: vs)
termination_by (sizeOf l, 0)
decreasing_by
  all_goals apply Prod.Lex.left
  all_goals simp
  all_goals omega

end

/-! ## Client operations on queries and bulk runs -/

/-- Embeds the query construction in `ExperimentClient.query_runs`
(experiment.py lines 751-755): the page window is `Page(start, limit)`
when both bounds are given and `None` otherwise, and the payload is the
dump of `QueryRuns(filter, sort, page)`. -/
def ExperimentClient.query_runs_query (filter : Option Filter)
    (sort : Option (List SortSpec)) (start limit : Option Int) : QueryRuns :=
  { filter := filter
    sort := sort
    page :=
      match start, limit with
      | some s, some l => some ⟨s, l⟩
      | _, _ => Option.none }

/-- The JSON payload `ExperimentClient.query_runs` posts (line 755). -/
def ExperimentClient.query_runs_payload (filter : Option Filter)
    (sort : Option (List SortSpec)) (start limit : Option Int) :
    Except SerError Json :=
  QueryRunsSchema.dump (ExperimentClient.query_runs_query filter sort start limit)

/-- Embeds `DeleteExperimentRunsResponse` (experiment.py lines 102-104). -/
structure DeleteExperimentRunsResponse where
  deleted_run_ids : List UUID
  conflicted_run_ids : List UUID
deriving DecidableEq, Repr

/-- Embeds `RestoreExperimentRunsResponse` (experiment.py lines 105-107). -/
structure RestoreExperimentRunsResponse where
  restored_run_ids : List UUID
  conflicted_run_ids : List UUID
deriving DecidableEq, Repr

/-- The observable outcome of a bulk delete/restore call: either a
response returned without any network call, or a POST of the given JSON
payload. -/
inductive BulkRunsOutcome (R : Type)
  | noCall (resp : R)
  | post (payload : Json)

/-- One `{"by": "runId", "operator": "eq", "value": str(run_id)}`
condition of the bulk delete/restore payload (lines 867-870 and
908-911). -/
def runIdCondition (run_id : UUID) : Json :=
  .obj [("by", .str "runId"), ("operator", .str "eq"),
        ("value", .str run_id.canonical)]

/-- The literal filter payload built for a non-empty run-ID list (lines
864-872 and 905-913): an `or` compound of `runId` equality conditions. -/
def runIdsFilterPayload (run_ids : List UUID) : Json :=
  .obj [("filter",
         .obj [("operator", .str "or"),
               ("conditions", .arr (run_ids.map runIdCondition))])]

/-- Embeds `ExperimentClient.delete_runs` (lines 854-876): `None` posts an
empty payload (no filter), an empty list short-circuits to an empty
response with no network call, and a non-empty list posts the `or`-of-
`runId`-conditions filter. -/
def ExperimentClient.delete_runs (run_ids : Option (List UUID)) :
    BulkRunsOutcome DeleteExperimentRunsResponse :=
  match run_ids with
  | Option.none => .post (.obj [])
  | some ids =>
    if ids.length = 0 then
      .noCall ⟨[], []⟩
    else
      .post (runIdsFilterPayload ids)

/-- Embeds `ExperimentClient.restore_runs` (lines 895-917), with the same
shape as `delete_runs`. -/
def ExperimentClient.restore_runs (run_ids : Option (List UUID)) :
    BulkRunsOutcome RestoreExperimentRunsResponse :=
  match run_ids with
  | Option.none => .post (.obj [])
  | some ids =>
    if ids.length = 0 then
      .noCall ⟨[], []⟩
    else
      .post (runIdsFilterPayload ids)

/-! ## The base client's error mapping (modelled from the spec)

`faculty/clients/base.py` is not among the sources; only its tests
(`tests/clients/test_base.py`) and its callers are.  The pieces the claims
need are modelled from the spec (§4.1, §4.2, §7) and the status table in
the tests. -/

/-- An HTTP response as far as the error mapping consults it: the status
code and the `errorCode` string of the JSON body, when present. -/
structure Response where
  status : Nat
  errorCode : Option String
deriving DecidableEq, Repr

/-- Modelled from the spec: the closed error taxonomy of
`faculty/clients/base.py` (§4.1; `BAD_RESPONSE_STATUSES` in
tests/clients/test_base.py lines 44-56).  `Conflict` carries the
body-supplied error code used for domain-specific reinterpretation. -/
inductive ApiError
  | badRequest
  | unauthorized
  | forbidden
  | notFound
  | methodNotAllowed
  | conflict (error_code : Option String)
  | internalServerError
  | badGateway
  | serviceUnavailable
  | gatewayTimeout
  | httpError (status : Nat)
deriving DecidableEq, Repr

/-- Modelled from the spec: the base client's status-code mapping
(§4.1, §7): 2xx is success, each listed status maps to its typed error,
any other non-2xx to the generic `HttpError`. -/
def check_status (r : Response) : Option ApiError :=
  if 200 ≤ r.status ∧ r.status < 300 then
    Option.none
  else
    some
      (match r.status with
       | 400 => .badRequest
       | 401 => .unauthorized
       | 403 => .forbidden
       | 404 => .notFound
       | 405 => .methodNotAllowed
       | 409 => .conflict r.errorCode
       | 500 => .internalServerError
       | 502 => .badGateway
       | 503 => .serviceUnavailable
       | 504 => .gatewayTimeout
       | s => .httpError s)

/-- The outcome of `ExperimentClient.create`: success, the reinterpreted
name-conflict exception carrying the attempted name, or a propagated
base-layer error. -/
inductive CreateExperimentOutcome
  | created
  | experimentNameConflict (name : String)
  | apiError (e : ApiError)
deriving DecidableEq, Repr

/-- Embeds the error handling of `ExperimentClient.create` (experiment.py
lines 469-475) over the modelled base layer: a `Conflict` whose
`error_code` is `"experiment_name_conflict"` is reinterpreted as
`ExperimentNameConflict(name)`; any other `Conflict` and every other
error is re-raised unchanged. -/
def ExperimentClient.create (name : String) (resp : Response) :
    CreateExperimentOutcome :=
  match check_status resp with
  | Option.none => .created
  | some (.conflict code) =>
    if code = some "experiment_name_conflict" then
      .experimentNameConflict name
    else
      .apiError (.conflict code)
  | some e => .apiError e

/-! ## The base schema's field extraction (modelled from the spec)

`BaseSchema` lives in `faculty/clients/base.py`, which is not among the
sources; the declarative field-extraction contract is modelled from the
spec (§4.2) and `test_base_schema_ignores_unknown_fields`
(tests/clients/test_base.py lines 103-111). -/

/-- Modelled from the spec: one declared schema field — the attribute
name, the (possibly different) JSON key it reads, whether it is required,
and the default used when an optional field is absent (`Option.none`
meaning the attribute is simply omitted).  Per-field type coercion is
abstracted: the looked-up JSON value is taken as the loaded value. -/
structure FieldSpec where
  name : String
  jsonKey : String
  required : Bool
  dflt : Option Json

/-- Modelled from the spec: extraction of one declared field (§4.2) —
read the JSON key; a missing required field is a schema error; a missing
optional field contributes its declared default, or nothing. -/
def loadField (data : List (String × Json)) (f : FieldSpec) :
    Except LoadError (List (String × Json)) :=
  match data.lookup f.jsonKey with
  | some v => .ok [(f.name, v)]
  | Option.none =>
    if f.required then
      .error (.validationError "does not match expected format")
    else
      .ok (match f.dflt with
           | some d => [(f.name, d)]
           | Option.none => [])

/-- Modelled from the spec: `BaseSchema` deserialisation (§4.2) — each
declared field is extracted from the JSON object in turn, and keys of the
object not declared in the schema are never consulted, hence ignored. -/
def BaseSchema.load (schema : List FieldSpec)
    (data : List (String × Json)) :
    Except LoadError (List (String × Json)) :=
  match schema with
  | [] => .ok []
  | f :: rest => do
    let v ← loadField data f
    let vs ← BaseSchema.load rest data
    .ok (v ++ vs)

/-! ## Concrete filter expressions used to exercise the round trip -/

/-- A well-formed single filter: runs of a given project. -/
def exampleSingle : Filter :=
  .single ⟨.PROJECT_ID, Option.none, .EQUAL_TO,
           .uuidV ⟨"f94ad3bd-425c-4b44-8f6b-1f1b7becc4e3"⟩⟩

/-- The wire encoding of `exampleSingle`. -/
def exampleSingleJson : Json :=
  .obj [("by", .str "projectId"), ("key", .null), ("operator", .str "eq"),
        ("value", .str "f94ad3bd-425c-4b44-8f6b-1f1b7becc4e3")]

/-- A well-formed compound filter of nesting depth 2. -/
def exampleNested : Filter :=
  .compound .AND [some (.compound .OR [some exampleSingle]),
                  some exampleSingle]

/-- The wire encoding of `exampleNested`. -/
def exampleNestedJson : Json :=
  .obj [("operator", .str "and"),
        ("conditions",
         .arr [.obj [("operator", .str "or"),
                     ("conditions", .arr [exampleSingleJson])],
               exampleSingleJson])]

/-- A raw single-filter JSON object (no `"conditions"` key), as a server
or a round trip would present it to `FilterField._deserialize`. -/
def rawSingleFilterJson : Json :=
  .obj [("by", .str "experimentId"), ("operator", .str "eq"),
        ("value", .str "12")]

/-- The two-sort example: primary by start time descending, secondary by
the `env` tag ascending. -/
def exampleSortStartedAt : SortSpec := ⟨.STARTED_AT, Option.none, .DESC⟩

/-- The second sort of the two-sort example. -/
def exampleSortTagEnv : SortSpec := ⟨.TAG, some "env", .ASC⟩

/-! ## Theorems -/

/-- `SingleFilter.new` succeeds exactly on key-presence matching
`needs_key`, and errors otherwise. -/
lemma singleFilter_new_ok_iff (b : SingleFilterBy) (k : Option String)
    (op : SingleFilterOperator) (v : FilterValue) :
    ((∃ f, SingleFilter.new b k op v = .ok f) ↔
      (k.isSome ↔ (b = .TAG ∨ b = .PARAM ∨ b = .METRIC)))
    ∧ ((∃ m, SingleFilter.new b k op v = .error m) ↔
      ¬(k.isSome ↔ (b = .TAG ∨ b = .PARAM ∨ b = .METRIC))) := by
  cases b <;> cases k <;>
    simp [SingleFilter.new, SingleFilterBy.needs_key]

/-- `Sort.new` succeeds exactly on key-presence matching `needs_key`, and
errors otherwise. -/
lemma sortSpec_new_ok_iff (b : SortBy) (k : Option String)
    (ord : SortOrder) :
    ((∃ s, SortSpec.new b k ord = .ok s) ↔
      (k.isSome ↔ (b = .TAG ∨ b = .PARAM ∨ b = .METRIC)))
    ∧ ((∃ m, SortSpec.new b k ord = .error m) ↔
      ¬(k.isSome ↔ (b = .TAG ∨ b = .PARAM ∨ b = .METRIC))) := by
  cases b <;> cases k <;>
    simp [SortSpec.new, SortBy.needs_key]

/-- Claim C1: for every `(by, key)` pair, constructing a `SingleFilter` or
a `Sort` succeeds exactly when the needs-key invariant holds — success
iff the key is present and `by` is `TAG`, `PARAM` or `METRIC`, or the key
is absent and `by` is any other variant — and every other pair raises a
`ValueError`. -/
theorem construction_needs_key_invariant (b : SingleFilterBy)
    (k : Option String) (op : SingleFilterOperator) (v : FilterValue)
    (sb : SortBy) (sk : Option String) (ord : SortOrder) :
    ((∃ f, SingleFilter.new b k op v = .ok f) ↔
      (k.isSome ↔ (b = .TAG ∨ b = .PARAM ∨ b = .METRIC)))
    ∧ ((∃ m, SingleFilter.new b k op v = .error m) ↔
      ¬(k.isSome ↔ (b = .TAG ∨ b = .PARAM ∨ b = .METRIC)))
    ∧ ((∃ s, SortSpec.new sb sk ord = .ok s) ↔
      (sk.isSome ↔ (sb = .TAG ∨ sb = .PARAM ∨ sb = .METRIC)))
    ∧ ((∃ m, SortSpec.new sb sk ord = .error m) ↔
      ¬(sk.isSome ↔ (sb = .TAG ∨ sb = .PARAM ∨ sb = .METRIC))) :=
  ⟨(singleFilter_new_ok_iff b k op v).1,
   (singleFilter_new_ok_iff b k op v).2,
   (sortSpec_new_ok_iff sb sk ord).1,
   (sortSpec_new_ok_iff sb sk ord).2⟩

/-- Claim C5: serialising an absent filter is permitted only at the top
level — under a `QueryRuns` it dumps to an explicit null (also shown for
a whole empty query), while a `None` inner condition raises
`RunQueryFilterValidation` (shown for the head of any conditions list and
for a concrete compound). -/
theorem none_filter_serialization_top_level_only
    (rest : List (Option Filter)) :
    FilterField.serialize Option.none .queryRuns = .ok .null
    ∧ QueryRunsSchema.dump ⟨Option.none, Option.none, Option.none⟩ =
        .ok (.obj [("filter", .null), ("sort", .null), ("page", .null)])
    ∧ FilterField.serialize Option.none .compoundFilter =
        .error (.runQueryFilterValidation
          "Validation error serialising a None filter")
    ∧ FilterField.serializeConditions (Option.none :: rest) =
        .error (.runQueryFilterValidation
          "Validation error serialising a None filter")
    ∧ FilterField.serialize (some (.compound .AND [Option.none]))
        .queryRuns =
        .error (.runQueryFilterValidation
          "Validation error serialising a None filter") := by
  refine ⟨?_, ?_, ?_, ?_, ?_⟩ <;>
    simp [FilterField.serialize, FilterField.serializeConditions,
      QueryRunsSchema.dump, QueryRunsSchema.dumpSortField,
      QueryRunsSchema.dumpPageField, Bind.bind, Except.bind]

/-- Claim C7: bulk delete/restore with an explicit empty list returns
empty ID lists with no network call; with `None` they post a payload with
no filter; with a non-empty list they post an `or` compound of `runId`
equality conditions, one per given ID, in order. -/
theorem bulk_delete_restore_runs (ids : List UUID) (h : ids ≠ []) :
    ExperimentClient.delete_runs (some []) = .noCall ⟨[], []⟩
    ∧ ExperimentClient.restore_runs (some []) = .noCall ⟨[], []⟩
    ∧ ExperimentClient.delete_runs Option.none = .post (.obj [])
    ∧ ExperimentClient.restore_runs Option.none = .post (.obj [])
    ∧ ExperimentClient.delete_runs (some ids) =
        .post (.obj [("filter",
          .obj [("operator", .str "or"),
                ("conditions", .arr (ids.map runIdCondition))])])
    ∧ ExperimentClient.restore_runs (some ids) =
        .post (.obj [("filter",
          .obj [("operator", .str "or"),
                ("conditions", .arr (ids.map runIdCondition))])])
    ∧ (ids.map runIdCondition).length = ids.length := by
  have hlen : ids.length ≠ 0 := by simpa using h
  refine ⟨rfl, rfl, rfl, rfl, ?_, ?_, by simp⟩ <;>
    simp [ExperimentClient.delete_runs, ExperimentClient.restore_runs,
      runIdsFilterPayload, hlen]

/-- Witness for C7 at the one-element list. -/
theorem bulk_delete_restore_runs_witness :
    ([⟨"f94ad3bd-425c-4b44-8f6b-1f1b7becc4e3"⟩] : List UUID) ≠ []
    ∧ ExperimentClient.delete_runs
        (some [⟨"f94ad3bd-425c-4b44-8f6b-1f1b7becc4e3"⟩]) =
      .post (.obj [("filter",
        .obj [("operator", .str "or"),
              ("conditions",
               .arr [runIdCondition
                 ⟨"f94ad3bd-425c-4b44-8f6b-1f1b7becc4e3"⟩])])]) :=
  ⟨by simp,
   (bulk_delete_restore_runs [⟨"f94ad3bd-425c-4b44-8f6b-1f1b7becc4e3"⟩]
     (by simp)).2.2.2.2.1⟩

/-- Claim C10: `query_runs` includes a page window iff both `start` and
`limit` are given: with both, the query's page is `Page(start, limit)`;
with either absent, the page is `None` whatever the other argument is. -/
theorem query_runs_page_window (f : Option Filter)
    (srt : Option (List SortSpec)) (s l : Int) (os ol : Option Int) :
    (ExperimentClient.query_runs_query f srt (some s) (some l)).page =
        some ⟨s, l⟩
    ∧ (ExperimentClient.query_runs_query f srt Option.none ol).page =
        Option.none
    ∧ (ExperimentClient.query_runs_query f srt os Option.none).page =
        Option.none := by
  refine ⟨rfl, rfl, ?_⟩
  cases os <;> rfl

/-- Claim C6: on the create-experiment path a 404 raises `NotFound`, a 409
whose body carries `errorCode "experiment_name_conflict"` raises
`ExperimentNameConflict` carrying the attempted name, and a 409 with any
other `errorCode` re-raises the generic `Conflict` unchanged. -/
theorem create_experiment_error_mapping (name : String)
    (oc : Option String) (code : String)
    (hc : code ≠ "experiment_name_conflict") :
    ExperimentClient.create name ⟨404, oc⟩ = .apiError .notFound
    ∧ ExperimentClient.create name ⟨409, some "experiment_name_conflict"⟩ =
        .experimentNameConflict name
    ∧ ExperimentClient.create name ⟨409, some code⟩ =
        .apiError (.conflict (some code)) := by
  refine ⟨rfl, rfl, ?_⟩
  simp [ExperimentClient.create, check_status, hc]

/-- Witness for C6 at a concrete name and unrecognised error code. -/
theorem create_experiment_error_mapping_witness :
    ("conflicting_params" : String) ≠ "experiment_name_conflict"
    ∧ ExperimentClient.create "my experiment"
        ⟨409, some "conflicting_params"⟩ =
      .apiError (.conflict (some "conflicting_params")) :=
  ⟨by decide,
   (create_experiment_error_mapping "my experiment" Option.none
     "conflicting_params" (by decide)).2.2⟩

/-- `lookup` returns `none` on a list none of whose keys is `k`. -/
lemma lookup_eq_none_of_keys_ne {l : List (String × Json)} {k : String}
    (h : ∀ e ∈ l, e.1 ≠ k) : l.lookup k = Option.none := by
  induction l with
  | nil => rfl
  | cons a as ih =>
    have ha : a.1 ≠ k := h a (by simp)
    rw [List.lookup]
    have : (k == a.1) = false := beq_false_of_ne fun e => ha e.symm
    rw [this]
    exact ih fun e he => h e (by simp [he])

/-- Appending bindings whose keys differ from `k` does not change a
lookup of `k`. -/
lemma lookup_append_of_keys_ne {data extras : List (String × Json)}
    {k : String} (h : ∀ e ∈ extras, e.1 ≠ k) :
    (data ++ extras).lookup k = data.lookup k := by
  induction data with
  | nil => simpa using lookup_eq_none_of_keys_ne h
  | cons a as ih =>
    rw [List.cons_append, List.lookup, List.lookup]
    cases k == a.1 <;> simp [ih]

/-- Claim C8: response-body keys not declared in the schema are ignored
rather than rejected — extraction over an object extended with undeclared
keys is the extraction over the original object (so unknown keys never
cause an error), and the spec's example decodes to the declared key
only. -/
theorem schema_load_ignores_unknown_keys (schema : List FieldSpec)
    (data extras : List (String × Json))
    (h : ∀ e ∈ extras, ∀ f ∈ schema, e.1 ≠ f.jsonKey) :
    BaseSchema.load schema (data ++ extras) = BaseSchema.load schema data
    ∧ BaseSchema.load [⟨"foo", "foo", true, Option.none⟩]
        [("foo", .str "bar"), ("extra", .num 1)] =
      .ok [("foo", .str "bar")] := by
  refine ⟨?_, rfl⟩
  induction schema with
  | nil => rfl
  | cons f rest ih =>
    have hf : loadField (data ++ extras) f = loadField data f := by
      unfold loadField
      rw [lookup_append_of_keys_ne fun e he => h e he f (by simp)]
    rw [BaseSchema.load, BaseSchema.load, hf,
      ih fun e he g hg => h e he g (by simp [hg])]

/-- Witness for C8 at the spec's example object and a one-field schema. -/
theorem schema_load_ignores_unknown_keys_witness :
    (∀ e ∈ [(("extra" : String), Json.num 1)],
      ∀ f ∈ [(⟨"foo", "foo", true, Option.none⟩ : FieldSpec)],
        e.1 ≠ f.jsonKey)
    ∧ BaseSchema.load [⟨"foo", "foo", true, Option.none⟩]
        ([("foo", .str "bar")] ++ [("extra", .num 1)]) =
      BaseSchema.load [⟨"foo", "foo", true, Option.none⟩]
        [("foo", .str "bar")] :=
  ⟨by simp, (schema_load_ignores_unknown_keys
    [⟨"foo", "foo", true, Option.none⟩] [("foo", .str "bar")]
    [("extra", .num 1)] (by simp)).1⟩

/-- Claim C9: encoding a sort list preserves order and length exactly —
the encoded sequence is the elementwise image of the input, its length
matches, its `i`-th element is the encoding of the `i`-th sort, and the
spec's two-element example encodes in its exact order. -/
theorem sort_encoding_preserves_order (l : List SortSpec) (i : Nat)
    (hi : i < l.length) :
    QueryRunsSchema.dumpSortField (some l) = .arr (l.map SortSchema.dump)
    ∧ (l.map SortSchema.dump).length = l.length
    ∧ (l.map SortSchema.dump)[i]? = some (SortSchema.dump l[i])
    ∧ QueryRunsSchema.dumpSortField
        (some [exampleSortStartedAt, exampleSortTagEnv]) =
      .arr [.obj [("by", .str "startedAt"), ("key", .null),
                  ("order", .str "desc")],
            .obj [("by", .str "tag"), ("key", .str "env"),
                  ("order", .str "asc")]] := by
  refine ⟨rfl, by simp, ?_, rfl⟩
  simp [List.getElem?_map, List.getElem?_eq_getElem hi]

/-- Witness for C9 at the two-element example and index 1. -/
theorem sort_encoding_preserves_order_witness :
    1 < ([exampleSortStartedAt, exampleSortTagEnv] : List SortSpec).length
    ∧ ([exampleSortStartedAt, exampleSortTagEnv].map SortSchema.dump)[1]? =
      some (SortSchema.dump [exampleSortStartedAt, exampleSortTagEnv][1]) :=
  ⟨by decide,
   (sort_encoding_preserves_order [exampleSortStartedAt, exampleSortTagEnv]
     1 (by decide)).2.2.1⟩

/-- `FilterField` dumps `exampleSingle` to its wire object, under any
enclosing object. -/
lemma ser_single (encl : Enclosing) :
    FilterField.serialize (some exampleSingle) encl = .ok exampleSingleJson := by
  rw [show exampleSingle = .single ⟨.PROJECT_ID, Option.none, .EQUAL_TO,
        .uuidV ⟨"f94ad3bd-425c-4b44-8f6b-1f1b7becc4e3"⟩⟩ from rfl]
  rw [FilterField.serialize]
  rfl

/-- The one-element conditions list dumps elementwise. -/
lemma serCond_one :
    FilterField.serializeConditions [some exampleSingle] =
      .ok [exampleSingleJson] := by
  rw [FilterField.serializeConditions, ser_single,
    FilterField.serializeConditions]
  rfl

/-- The inner `or` compound of `exampleNested` dumps to its wire
object. -/
lemma ser_innerOr (encl : Enclosing) :
    FilterField.serialize (some (.compound .OR [some exampleSingle])) encl =
      .ok (.obj [("operator", .str "or"),
                 ("conditions", .arr [exampleSingleJson])]) := by
  rw [FilterField.serialize, serCond_one]
  rfl

/-- The two-element conditions list of `exampleNested` dumps
elementwise, in order. -/
lemma serCond_nested :
    FilterField.serializeConditions
        [some (.compound .OR [some exampleSingle]), some exampleSingle] =
      .ok [.obj [("operator", .str "or"),
                 ("conditions", .arr [exampleSingleJson])],
           exampleSingleJson] := by
  rw [FilterField.serializeConditions, ser_innerOr, serCond_one]
  rfl

/-- `FilterField` dumps `exampleNested` to its wire object. -/
lemma ser_nested :
    FilterField.serialize (some exampleNested) .queryRuns =
      .ok exampleNestedJson := by
  rw [show exampleNested = .compound .AND
        [some (.compound .OR [some exampleSingle]), some exampleSingle] from rfl]
  rw [FilterField.serialize, serCond_nested]
  rfl

/-- Decoding the encoded single filter fails: its `"eq"` operator is not
a valid `CompoundFilterOperator`. -/
lemma deser_singleJson :
    FilterField.deserialize exampleSingleJson =
      .error (.validationError "Invalid enum value") := by
  rw [FilterField.deserialize]
  · rw [show exampleSingleJson = .obj [("by", .str "projectId"), ("key", .null),
        ("operator", .str "eq"),
        ("value", .str "f94ad3bd-425c-4b44-8f6b-1f1b7becc4e3")] from rfl,
      CompoundFilterSchema.load]
    rfl
  · simp [exampleSingleJson]

/-- The failure propagates out of a conditions list headed by the encoded
single filter. -/
lemma loadConds_singleJson :
    FilterField.loadConditions [exampleSingleJson] =
      .error (.validationError "Invalid enum value") := by
  rw [FilterField.loadConditions, deser_singleJson]

/-- Decoding the encoded inner `or` compound fails at its single-filter
condition. -/
lemma deser_innerOrJson :
    FilterField.deserialize
        (.obj [("operator", .str "or"),
               ("conditions", .arr [exampleSingleJson])]) =
      .error (.validationError "Invalid enum value") := by
  rw [FilterField.deserialize]
  · rw [CompoundFilterSchema.load,
      CompoundFilterSchema.loadConditionsField.eq_3 _ _ _
        (fun _ h => Json.noConfusion h),
      if_neg (by decide), CompoundFilterSchema.loadConditionsField.eq_2,
      if_pos rfl, loadConds_singleJson]
    rfl
  · simp

/-- The failure propagates out of the depth-2 conditions list. -/
lemma loadConds_nestedList :
    FilterField.loadConditions
        [.obj [("operator", .str "or"),
               ("conditions", .arr [exampleSingleJson])],
         exampleSingleJson] =
      .error (.validationError "Invalid enum value") := by
  rw [FilterField.loadConditions, deser_innerOrJson]

/-- Decoding the encoded depth-2 compound fails at its innermost
single-filter condition. -/
lemma deser_nestedJson :
    FilterField.deserialize exampleNestedJson =
      .error (.validationError "Invalid enum value") := by
  rw [FilterField.deserialize]
  · rw [show exampleNestedJson = .obj [("operator", .str "and"),
        ("conditions",
         .arr [.obj [("operator", .str "or"),
                     ("conditions", .arr [exampleSingleJson])],
               exampleSingleJson])] from rfl,
      CompoundFilterSchema.load,
      CompoundFilterSchema.loadConditionsField.eq_3 _ _ _
        (fun _ h => Json.noConfusion h),
      if_neg (by decide), CompoundFilterSchema.loadConditionsField.eq_2,
      if_pos rfl, loadConds_nestedList]
    rfl
  · simp [exampleNestedJson]

/-- Claim C2 (evaluated at the failing inputs): the round trip
`decode(encode(f)) == f` does not hold — encoding a well-formed
`SingleFilter`, or a nested compound of depth 2, and decoding the result
raises a `ValidationError` instead of returning `f`, because
`FilterField._deserialize` routes every non-null raw JSON object to
`CompoundFilterSchema().load`, which rejects the `"eq"`
operator. -/
theorem filter_roundtrip_decode_fails :
    FilterField.serialize (some exampleSingle) .queryRuns =
        .ok exampleSingleJson
    ∧ FilterField.deserialize exampleSingleJson =
        .error (.validationError "Invalid enum value")
    ∧ FilterField.serialize (some exampleNested) .queryRuns =
        .ok exampleNestedJson
    ∧ FilterField.deserialize exampleNestedJson =
        .error (.validationError "Invalid enum value") :=
  ⟨ser_single .queryRuns, deser_singleJson, ser_nested, deser_nestedJson⟩

/-- A raw single-filter object is rejected by the decoder. -/
lemma deser_rawSingle :
    FilterField.deserialize rawSingleFilterJson =
      .error (.validationError "Invalid enum value") := by
  rw [FilterField.deserialize]
  · rw [show rawSingleFilterJson = .obj [("by", .str "experimentId"),
        ("operator", .str "eq"), ("value", .str "12")] from rfl,
      CompoundFilterSchema.load]
    rfl
  · simp [rawSingleFilterJson]

/-- A raw compound object with an empty conditions list decodes along the
compound path. -/
lemma deser_emptyCompound :
    FilterField.deserialize
        (.obj [("operator", .str "and"), ("conditions", .arr [])]) =
      .ok (.dict [("operator", .compoundOp .AND),
                  ("conditions", .list [])]) := by
  rw [FilterField.deserialize]
  · rw [CompoundFilterSchema.load,
      CompoundFilterSchema.loadConditionsField.eq_3 _ _ _
        (fun _ h => Json.noConfusion h),
      if_neg (by decide), CompoundFilterSchema.loadConditionsField.eq_2,
      if_pos rfl, FilterField.loadConditions]
    rfl
  · simp

/-- Claim C4 (evaluated at the failing input): a raw filter JSON object
without a `"conditions"` key is not decoded as a `SingleFilter` —
`FilterField._deserialize` tests `isinstance(value, SingleFilter)`, never
true of raw JSON, so the object is fed to `CompoundFilterSchema().load`
and rejected; an object with a `"conditions"` key is indeed decoded along
the compound path. -/
theorem filter_deserialize_dispatches_on_instance_not_conditions :
    FilterField.deserialize rawSingleFilterJson =
        .error (.validationError "Invalid enum value")
    ∧ FilterField.deserialize
        (.obj [("operator", .str "and"), ("conditions", .arr [])]) =
      .ok (.dict [("operator", .compoundOp .AND),
                  ("conditions", .list [])]) :=
  ⟨deser_rawSingle, deser_emptyCompound⟩


/-- The digit character of `n < 10` is a digit. -/
lemma digitChar_isDigit (n : Nat) (h : n < 10) : (digitChar n).isDigit = true := by
  interval_cases n <;> decide

/-- Reading back the digit character of `n < 10` gives `n`. -/
lemma digitVal_digitChar (n : Nat) (h : n < 10) : digitVal (digitChar n) = n := by
  interval_cases n <;> decide

/-- Reading back the digit character of `n % 10` gives `n % 10`. -/
lemma digitVal_digitChar_mod10 (n : Nat) :
    digitVal (digitChar (n % 10)) = n % 10 :=
  digitVal_digitChar _ (Nat.mod_lt _ (by omega))

/-- Parsing either textual rendering of a valid datetime recovers it. -/
lemma from_iso_datetime_chars (sep : Char) (hsep : sep = 'T' ∨ sep = ' ')
    (d : PyDateTime) (hv : d.valid) :
    from_iso_datetime (String.mk (d.chars sep)) = .ok d := by
  obtain ⟨y, mo, da, hh, mi, ss⟩ := d
  obtain ⟨h1, h2, h3, h4, h5, h6⟩ := hv
  have hy : y < 10000 := h1
  have hmo : mo < 100 := h2
  have hda : da < 100 := h3
  have hhh : hh < 100 := h4
  have hmi : mi < 100 := h5
  have hss : ss < 100 := h6
  clear h1 h2 h3 h4 h5 h6
  have g1 : (digitChar (y / 1000)).isDigit = true := digitChar_isDigit _ (by omega)
  have g2 : (digitChar (y / 100 % 10)).isDigit = true := digitChar_isDigit _ (by omega)
  have g3 : (digitChar (y / 10 % 10)).isDigit = true := digitChar_isDigit _ (by omega)
  have g4 : (digitChar (y % 10)).isDigit = true := digitChar_isDigit _ (by omega)
  have g5 : (digitChar (mo / 10)).isDigit = true := digitChar_isDigit _ (by omega)
  have g6 : (digitChar (mo % 10)).isDigit = true := digitChar_isDigit _ (by omega)
  have g7 : (digitChar (da / 10)).isDigit = true := digitChar_isDigit _ (by omega)
  have g8 : (digitChar (da % 10)).isDigit = true := digitChar_isDigit _ (by omega)
  have g9 : (digitChar (hh / 10)).isDigit = true := digitChar_isDigit _ (by omega)
  have g10 : (digitChar (hh % 10)).isDigit = true := digitChar_isDigit _ (by omega)
  have g11 : (digitChar (mi / 10)).isDigit = true := digitChar_isDigit _ (by omega)
  have g12 : (digitChar (mi % 10)).isDigit = true := digitChar_isDigit _ (by omega)
  have g13 : (digitChar (ss / 10)).isDigit = true := digitChar_isDigit _ (by omega)
  have g14 : (digitChar (ss % 10)).isDigit = true := digitChar_isDigit _ (by omega)
  have e1 := digitVal_digitChar (y / 1000) (by omega)
  have e2 := digitVal_digitChar (mo / 10) (by omega)
  have e3 := digitVal_digitChar (da / 10) (by omega)
  have e4 := digitVal_digitChar (hh / 10) (by omega)
  have e5 := digitVal_digitChar (mi / 10) (by omega)
  have e6 := digitVal_digitChar (ss / 10) (by omega)
  have hdata : (String.mk (PyDateTime.chars sep ⟨y, mo, da, hh, mi, ss⟩)).data
      = [digitChar (y / 1000), digitChar (y / 100 % 10),
         digitChar (y / 10 % 10), digitChar (y % 10),
         '-', digitChar (mo / 10), digitChar (mo % 10), '-',
         digitChar (da / 10), digitChar (da % 10), sep,
         digitChar (hh / 10), digitChar (hh % 10), ':',
         digitChar (mi / 10), digitChar (mi % 10), ':',
         digitChar (ss / 10), digitChar (ss % 10)] := by
    simp [PyDateTime.chars, pad4, pad2]
  unfold from_iso_datetime
  rw [hdata]
  rcases hsep with rfl | rfl <;>
    simp only [g1, g2, g3, g4, g5, g6, g7, g8, g9, g10, g11, g12, g13, g14] <;>
    rw [if_pos (by simp)] <;>
    simp only [digitVal_digitChar_mod10, e1, e2, e3, e4, e5, e6,
      Except.ok.injEq, PyDateTime.mk.injEq] <;>
    refine ⟨by omega, by omega, by omega, by omega, by omega, by omega⟩


/-- Claim C3: serialising a single filter value follows the
`by`-dependent rule — an integer under `EXPERIMENT_ID` becomes its
decimal string; a UUID under `PROJECT_ID` or `RUN_ID` becomes its
canonical string; any value under `TAG`, `PARAM` or `METRIC` passes
through as its string form; under `DELETED_AT` the result is the
ISO-8601 string whether the datetime is given as a datetime object or as
a parseable string; and the remaining by/value-type combinations raise
`RunQueryFilterValidation`. -/
theorem single_filter_value_serialization (n : Int) (u : UUID)
    (v : FilterValue) (b : SingleFilterBy)
    (hb : b = .TAG ∨ b = .PARAM ∨ b = .METRIC)
    (d : PyDateTime) (hd : d.valid)
    (s : String) (d2 : PyDateTime) (hs : from_iso_datetime s = .ok d2)
    (b2 : SingleFilterBy) (hb2 : b2 = .PROJECT_ID ∨ b2 = .RUN_ID)
    (v2 : FilterValue) (hv2 : ∀ u2 : UUID, v2 ≠ .uuidV u2)
    (v3 : FilterValue) (hv3 : ∀ m : Int, v3 ≠ .intV m) :
    SingleFilterValueField.serialize (.intV n) .EXPERIMENT_ID =
        .ok (toString n)
    ∧ SingleFilterValueField.serialize (.uuidV u) .PROJECT_ID =
        .ok u.canonical
    ∧ SingleFilterValueField.serialize (.uuidV u) .RUN_ID =
        .ok u.canonical
    ∧ SingleFilterValueField.serialize v b = .ok v.pyStr
    ∧ SingleFilterValueField.serialize (.dtV d) .DELETED_AT =
        .ok d.isoformat
    ∧ SingleFilterValueField.serialize (.strV s) .DELETED_AT =
        .ok d2.isoformat
    ∧ SingleFilterValueField.serialize v2 b2 =
        .error (.runQueryFilterValidation
          "Validation error serialising run query filter")
    ∧ SingleFilterValueField.serialize v3 .EXPERIMENT_ID =
        .error (.runQueryFilterValidation
          "Validation error serialising run query filter") := by
  refine ⟨rfl, rfl, rfl, ?_, ?_, ?_, ?_, ?_⟩
  · rcases hb with rfl | rfl | rfl <;> cases v <;> rfl
  · have hp := from_iso_datetime_chars ' ' (Or.inr rfl) d hd
    show (from_iso_datetime (PyDateTime.pyStr d)).map PyDateTime.isoformat =
      .ok d.isoformat
    rw [PyDateTime.pyStr, hp]
    rfl
  · show (from_iso_datetime s).map PyDateTime.isoformat = .ok d2.isoformat
    rw [hs]
    rfl
  · rcases hb2 with rfl | rfl <;> cases v2 <;>
      first
        | rfl
        | exact absurd rfl (hv2 _)
  · cases v3 <;>
      first
        | rfl
        | exact absurd rfl (hv3 _)


/-- Witness for C3 at concrete values of every hypothesis. -/
theorem single_filter_value_serialization_witness :
    ((SingleFilterBy.TAG : SingleFilterBy) = .TAG ∨
      SingleFilterBy.TAG = .PARAM ∨ SingleFilterBy.TAG = .METRIC)
    ∧ PyDateTime.valid ⟨2019, 3, 12, 16, 20, 22⟩
    ∧ from_iso_datetime "2019-03-12 16:20:22" = .ok ⟨2019, 3, 12, 16, 20, 22⟩
    ∧ ((SingleFilterBy.RUN_ID : SingleFilterBy) = .PROJECT_ID ∨
        SingleFilterBy.RUN_ID = .RUN_ID)
    ∧ (∀ u2 : UUID, FilterValue.intV 7 ≠ .uuidV u2)
    ∧ (∀ m : Int, FilterValue.strV "abc" ≠ .intV m)
    ∧ SingleFilterValueField.serialize (.strV "2019-03-12 16:20:22")
        .DELETED_AT =
      .ok (PyDateTime.isoformat ⟨2019, 3, 12, 16, 20, 22⟩) :=
  ⟨Or.inl rfl, by decide, by rfl, Or.inr rfl,
   by simp, by simp,
   (single_filter_value_serialization 42
     ⟨"f94ad3bd-425c-4b44-8f6b-1f1b7becc4e3"⟩ (.strV "production") .TAG
     (Or.inl rfl) ⟨2019, 3, 12, 16, 20, 22⟩ (by decide)
     "2019-03-12 16:20:22" ⟨2019, 3, 12, 16, 20, 22⟩ (by rfl)
     .RUN_ID (Or.inr rfl) (.intV 7) (by simp) (.strV "abc")
     (by simp)).2.2.2.2.2.1⟩


end Faculty
